import Mathlib

/-!
Verification of the breast_cancer_classification repository against its
natural-language specification.

The repository is Python glue code over ML/LLM libraries.  We give a shallow
embedding of the parts of `src/app/predict.py`, `src/app/rag.py` and
`src/app/api.py` that the claims concern:

* pure decision logic (`predict_image`) becomes a pure function over `ℚ`
  (the scalar probability produced by the external network forward pass is a
  parameter);
* fallible code becomes `Except PyExc _`, where `PyExc` records the Python
  exception class and message raised at each raise site of the source;
* filesystem state consumed or produced by a function (directory existence,
  per-file read outcomes, directory creation) is passed explicitly;
* components the source delegates wholesale to external libraries
  (the langchain `RecursiveCharacterTextSplitter`, the FAISS vector store)
  are modelled from the specification, and marked as such in their doc
  comments.
-/

/-- Python exception values raised by the embedded code, recording the Python
exception class together with the message string from the raise site.
In Python 3, `FileNotFoundError` is a subclass of `OSError`, and `IOError` is
an alias of `OSError`; so a `fileNotFoundError` value is an IOError-class
error at the Python level. -/
inductive PyExc where
  | valueError (msg : String)
  | fileNotFoundError (msg : String)
  | nameError (msg : String)
deriving DecidableEq

/-- Message of the `ValueError` raised by `_get_openai_embeddings`
(`src/app/rag.py` line 18) when `OPENAI_API_KEY` is unset or empty. -/
def configMsg : String := "[ERROR] OPENAI_API_KEY not set in environment."

/-- Message of the `ValueError` raised by `load_documents`
(`src/app/rag.py` line 39) when the folder is missing or not a directory. -/
def folderNotFoundMsg (folder_path : String) : String :=
  "[ERROR] Folder not found: " ++ folder_path

/-- Message of the `ValueError` raised by `create_and_save_vectorstore`
(`src/app/rag.py` line 100) on an empty document list. -/
def validationMsg : String := "[ERROR] No documents provided to create vectorstore."

/-- Message of the `FileNotFoundError` raised by `create_and_save_vectorstore`
(`src/app/rag.py` line 107) when `save_path.mkdir` fails; `e` is the text of
the underlying OS exception. -/
def cannotCreateMsg (save_path e : String) : String :=
  "[ERROR] Cannot create save_path: " ++ save_path ++ ". " ++ e

/-- The spec's `ConfigError` class (spec §7: missing credential), as realized
by the code: the `ValueError` with the `OPENAI_API_KEY` message. -/
def isConfigErrorClass : PyExc → Prop
  | .valueError m => m = configMsg
  | _ => False

/-- The spec's `NotFoundError` class (spec §7: missing corpus folder,
missing/empty index folder), as realized by the code: the `ValueError` with
the folder-not-found message, or the `FileNotFoundError` from
`load_vectorstore`. -/
def isNotFoundErrorClass : PyExc → Prop
  | .valueError m => ∃ p, m = folderNotFoundMsg p
  | .fileNotFoundError m =>
      ∃ p, m = "[ERROR] Vectorstore folder not found or empty: " ++ p
  | _ => False

/-- The spec's `ValidationError` class (spec §7: empty document set), as
realized by the code: the `ValueError` with the no-documents message. -/
def isValidationErrorClass : PyExc → Prop
  | .valueError m => m = validationMsg
  | _ => False

/-- IOError-class errors at the Python level: in Python 3 `IOError` is an
alias of `OSError` and `FileNotFoundError` is a subclass of `OSError`, so the
`FileNotFoundError` values are exactly the IOError-class values our embedded
code can produce (`ValueError` and `NameError` are not `OSError` subclasses). -/
def isIoErrClass : PyExc → Prop
  | .fileNotFoundError _ => True
  | _ => False

/-- Two strings differ if their character lists differ at some position. -/
theorem string_ne_of_char_ne (s t : String) (i : Nat)
    (h : s.data[i]? ≠ t.data[i]?) : s ≠ t :=
  fun e => h (by rw [e])

theorem folderNotFoundMsg_ne_configMsg (p : String) :
    folderNotFoundMsg p ≠ configMsg := by
  apply string_ne_of_char_ne _ _ 8
  rw [folderNotFoundMsg, String.data_append, List.getElem?_append_left (by decide)]
  decide

theorem folderNotFoundMsg_ne_validationMsg (p : String) :
    folderNotFoundMsg p ≠ validationMsg := by
  apply string_ne_of_char_ne _ _ 8
  rw [folderNotFoundMsg, String.data_append, List.getElem?_append_left (by decide)]
  decide

/-!
## Image classifier: `predict_image` (`src/app/predict.py`)

The forward pass `model.predict(image_tensor)` is an external network call;
its scalar output `prob = float(preds[0][0])` is the parameter `prob` here.
The threshold default in the source is `0.004`.
-/

/-- Default of the `threshold` parameter of `predict_image`. -/
def defaultThreshold : ℚ := 0.004

/-- Embedding of `predict_image` (`src/app/predict.py` lines 6–27), after the
external forward pass produced the scalar probability `prob`:
label is "malignant" iff `prob ≥ threshold`, confidence is `prob*100` for
"malignant" and `(1-prob)*100` for "benign". -/
def predict_image (prob threshold : ℚ) : String × ℚ :=
  let class_label := if prob ≥ threshold then "malignant" else "benign"
  let confidence_percent :=
    if class_label = "malignant" then prob * 100 else (1 - prob) * 100
  (class_label, confidence_percent)

/-- Claim C1: with the default threshold 0.004, `predict_image` labels
"malignant" iff p ≥ 0.004 (so p = 0.004 gives "malignant" and p = 0.003999
gives "benign"); the confidence is p×100 when "malignant" and (1−p)×100 when
"benign", and lies in [0,100] whenever p ∈ [0,1]. -/
theorem predict_image_threshold_and_confidence (p : ℚ) (h0 : 0 ≤ p) (h1 : p ≤ 1) :
    (predict_image p defaultThreshold).1
        = (if p ≥ defaultThreshold then "malignant" else "benign")
    ∧ (predict_image defaultThreshold defaultThreshold).1 = "malignant"
    ∧ (predict_image 0.003999 defaultThreshold).1 = "benign"
    ∧ ((predict_image p defaultThreshold).1 = "malignant" →
        (predict_image p defaultThreshold).2 = p * 100)
    ∧ ((predict_image p defaultThreshold).1 = "benign" →
        (predict_image p defaultThreshold).2 = (1 - p) * 100)
    ∧ 0 ≤ (predict_image p defaultThreshold).2
    ∧ (predict_image p defaultThreshold).2 ≤ 100 := by
  have hlab : (predict_image p defaultThreshold).1
      = (if p ≥ defaultThreshold then "malignant" else "benign") := rfl
  have hthr : (predict_image defaultThreshold defaultThreshold).1 = "malignant" := by
    norm_num [predict_image]
  have hlow : (predict_image 0.003999 defaultThreshold).1 = "benign" := by
    norm_num [predict_image, defaultThreshold]
  by_cases hp : p ≥ defaultThreshold
  · have h1' : (predict_image p defaultThreshold).1 = "malignant" := by
      rw [hlab, if_pos hp]
    have hconf : (predict_image p defaultThreshold).2 = p * 100 := by
      simp [predict_image, hp]
    refine ⟨hlab, hthr, hlow, fun _ => hconf, fun hb => ?_, ?_, ?_⟩
    · rw [h1'] at hb
      exact absurd hb (by decide)
    · rw [hconf]; positivity
    · rw [hconf]; linarith
  · have h1' : (predict_image p defaultThreshold).1 = "benign" := by
      rw [hlab, if_neg hp]
    have hconf : (predict_image p defaultThreshold).2 = (1 - p) * 100 := by
      simp [predict_image, hp]
    refine ⟨hlab, hthr, hlow, fun hm => ?_, fun _ => hconf, ?_, ?_⟩
    · rw [h1'] at hm
      exact absurd hm (by decide)
    · rw [hconf]; nlinarith
    · rw [hconf]; nlinarith

/-- Concrete instance of the C1 theorem at p = 1/2. -/
theorem predict_image_threshold_and_confidence_witness :
    (0 ≤ (1/2 : ℚ) ∧ (1/2 : ℚ) ≤ 1)
    ∧ ((predict_image (1/2) defaultThreshold).1
        = (if (1/2 : ℚ) ≥ defaultThreshold then "malignant" else "benign")
    ∧ (predict_image defaultThreshold defaultThreshold).1 = "malignant"
    ∧ (predict_image 0.003999 defaultThreshold).1 = "benign"
    ∧ ((predict_image (1/2) defaultThreshold).1 = "malignant" →
        (predict_image (1/2) defaultThreshold).2 = (1/2) * 100)
    ∧ ((predict_image (1/2) defaultThreshold).1 = "benign" →
        (predict_image (1/2) defaultThreshold).2 = (1 - 1/2) * 100)
    ∧ 0 ≤ (predict_image (1/2) defaultThreshold).2
    ∧ (predict_image (1/2) defaultThreshold).2 ≤ 100) :=
  ⟨⟨by norm_num, by norm_num⟩,
   predict_image_threshold_and_confidence (1/2) (by norm_num) (by norm_num)⟩

/-!
## Chunker (spec §4.2)

Modelled from the spec: the chunker in `load_documents` (`src/app/rag.py`
lines 67–76) is langchain's `RecursiveCharacterTextSplitter`, external
library code not under `src/`.  Spec §4.2: each chunk stays ≤ `chunk_size`;
consecutive chunks from the same source share exactly `chunk_overlap`
characters; a document shorter than `chunk_size` yields exactly one chunk;
requires `chunk_overlap < chunk_size`.  We model this as a sliding window
over the document's characters with stride `chunk_size - chunk_overlap`.
The `fuel` argument is only a structural-termination device: `fuel ≥ s.length`
makes it irrelevant. -/
def chunkGo (size ov : Nat) : Nat → List Char → List (List Char)
  | 0, s => [s]
  | fuel + 1, s =>
      if s.length ≤ size then [s]
      else s.take size :: chunkGo size ov fuel (s.drop (size - ov))

/-- Modelled from the spec: split one document text into chunks of at most
`size` characters, consecutive chunks sharing `ov` characters. -/
def chunkList (size ov : Nat) (s : List Char) : List (List Char) :=
  chunkGo size ov s.length s

/-- Two adjacent chunks share exactly `ov` characters: the last `ov`
characters of the first chunk are the first `ov` characters of the second. -/
def sharesOverlap (ov : Nat) (a b : List Char) : Prop :=
  a.drop (a.length - ov) = b.take ov ∧ ov ≤ a.length ∧ ov ≤ b.length

theorem chunkGo_length_le (size ov : Nat) (hov : ov < size) :
    ∀ fuel s, s.length ≤ fuel → ∀ c ∈ chunkGo size ov fuel s, c.length ≤ size := by
  intro fuel
  induction fuel with
  | zero =>
      intro s hs c hc
      simp only [chunkGo, List.mem_singleton] at hc
      subst hc
      omega
  | succ n ih =>
      intro s hs c hc
      rw [chunkGo] at hc
      by_cases hlen : s.length ≤ size
      · rw [if_pos hlen] at hc
        simp only [List.mem_singleton] at hc
        subst hc
        exact hlen
      · rw [if_neg hlen] at hc
        rcases List.mem_cons.mp hc with h | h
        · subst h
          simp [List.length_take]
        · refine ih (s.drop (size - ov)) ?_ c h
          rw [List.length_drop]
          omega

theorem chunkGo_head (size ov : Nat) :
    ∀ fuel s, s.length ≤ fuel →
      (chunkGo size ov fuel s).head? = some (s.take size) := by
  intro fuel
  induction fuel with
  | zero =>
      intro s hs
      have : s = [] := List.length_eq_zero.mp (Nat.le_zero.mp hs)
      subst this
      simp [chunkGo]
  | succ n _ =>
      intro s _
      rw [chunkGo]
      by_cases hlen : s.length ≤ size
      · rw [if_pos hlen, List.take_of_length_le hlen]
        rfl
      · rw [if_neg hlen]
        rfl

theorem chunkGo_chain (size ov : Nat) (hov : ov < size) :
    ∀ fuel s, s.length ≤ fuel →
      List.Chain' (sharesOverlap ov) (chunkGo size ov fuel s) := by
  intro fuel
  induction fuel with
  | zero =>
      intro s _
      simp [chunkGo]
  | succ n ih =>
      intro s hs
      rw [chunkGo]
      by_cases hlen : s.length ≤ size
      · rw [if_pos hlen]
        simp
      · rw [if_neg hlen]
        push_neg at hlen
        have hrest : (s.drop (size - ov)).length ≤ n := by
          rw [List.length_drop]
          omega
        refine List.chain'_cons'.mpr ⟨?_, ih (s.drop (size - ov)) hrest⟩
        intro b hb
        rw [chunkGo_head size ov n (s.drop (size - ov)) hrest] at hb
        simp only [Option.mem_def, Option.some.injEq] at hb
        subst hb
        constructor
        · rw [List.length_take]
          have hmin : min size s.length = size := by omega
          rw [hmin, List.drop_take, List.take_take]
          have h1 : size - (size - ov) = ov := by omega
          have h2 : min ov size = ov := by omega
          rw [h1, h2]
        · constructor
          · rw [List.length_take]
            omega
          · rw [List.length_take, List.length_drop]
            omega

/-- Claim C2 (spec-modelled): for `chunk_overlap < chunk_size`, every chunk
has length ≤ `chunk_size`; every pair of consecutive chunks of a document
shares exactly `chunk_overlap` characters (the final chunk, having no
successor, excepted); a document shorter than `chunk_size` yields exactly one
chunk. -/
theorem chunker_bounds_overlap_single (size ov : Nat) (s : List Char)
    (hov : ov < size) :
    (∀ c ∈ chunkList size ov s, c.length ≤ size)
    ∧ List.Chain' (sharesOverlap ov) (chunkList size ov s)
    ∧ (s.length < size → chunkList size ov s = [s]) := by
  refine ⟨chunkGo_length_le size ov hov s.length s le_rfl,
          chunkGo_chain size ov hov s.length s le_rfl, ?_⟩
  intro hshort
  rw [chunkList]
  cases hl : s.length with
  | zero => rw [chunkGo]
  | succ n =>
      rw [chunkGo, if_pos (by omega)]

/-- Concrete instance of the C2 theorem: size 5, overlap 2, an 8-character
document; the chunks are "abcde" and "defgh", sharing exactly "de". -/
theorem chunker_bounds_overlap_single_witness :
    (2 < 5)
    ∧ ((∀ c ∈ chunkList 5 2 ("abcdefgh".data), c.length ≤ 5)
    ∧ List.Chain' (sharesOverlap 2) (chunkList 5 2 ("abcdefgh".data))
    ∧ (("abcdefgh".data).length < 5 → chunkList 5 2 ("abcdefgh".data) = ["abcdefgh".data])) :=
  ⟨by decide, chunker_bounds_overlap_single 5 2 ("abcdefgh".data) (by decide)⟩

/-!
## Document loader: `load_documents` (`src/app/rag.py` lines 22–77)

A langchain `Document` is modelled by its extracted text (its metadata plays
no role in any claim).  The filesystem the loader walks is passed explicitly:
a `Folder` records whether the path exists and is a directory, and the list
of entries that `folder.rglob("*")` yields, in traversal order.  For each
entry we record whether it is a regular file, its lowercased extension
(`file_path.suffix.lower()` in the source), and the outcome of the external
per-format `loader.load()` call (documents on success, an exception text on
failure). -/
structure Document where
  text : String
deriving DecidableEq

/-- One entry yielded by `folder.rglob("*")`. -/
structure FileEntry where
  path : String
  isFile : Bool
  ext : String
  readResult : Except String (List Document)

/-- The state of the corpus folder given to `load_documents`. -/
structure Folder where
  pathExists : Bool
  isDir : Bool
  files : List FileEntry

/-- The extensions `load_documents` dispatches on (`.pdf`, `.txt`, `.docx`,
`.csv`); any other extension is skipped by the final `else: continue`. -/
def supportedExts : List String := [".pdf", ".txt", ".docx", ".csv"]

/-- Warning line printed by `load_documents` when one file fails to load. -/
def warnMsg (path e : String) : String :=
  "[Warning] Failed to load " ++ path ++ ": " ++ e

/-- One iteration of the `for file_path in folder.rglob` loop: the
accumulator is the `all_docs` list so far together with the warnings printed
so far. -/
def loadStep (acc : List Document × List String) (f : FileEntry) :
    List Document × List String :=
  if f.isFile = false then acc
  else if supportedExts.contains f.ext then
    match f.readResult with
    | .ok docs => (acc.1 ++ docs, acc.2)
    | .error e => (acc.1, acc.2 ++ [warnMsg f.path e])
  else acc

/-- `splitter.split_documents(all_docs)`: each document's text is chunked
(model of the splitter, see `chunkList`) and every chunk becomes a document. -/
def split_documents (chunk_size chunk_overlap : Nat) (docs : List Document) :
    List Document :=
  docs.flatMap fun d =>
    (chunkList chunk_size chunk_overlap d.text.data).map fun c => ⟨String.mk c⟩

/-- Embedding of `load_documents`: checks the folder, then walks the entries
accumulating successfully read documents and per-file warnings, then splits
into chunks.  Returns the result together with the warnings printed. -/
def load_documents (folder_path : String) (folder : Folder)
    (chunk_size chunk_overlap : Nat) :
    Except PyExc (List Document) × List String :=
  if ¬ (folder.pathExists = true ∧ folder.isDir = true) then
    (.error (.valueError (folderNotFoundMsg folder_path)), [])
  else
    let acc := folder.files.foldl loadStep ([], [])
    (.ok (split_documents chunk_size chunk_overlap acc.1), acc.2)

/-- The documents the loader could read: concatenation, in traversal order,
of the documents of every regular file with a supported extension whose read
succeeded. -/
def readableDocs : List FileEntry → List Document
  | [] => []
  | f :: fs =>
      (if f.isFile = true ∧ supportedExts.contains f.ext = true then
        match f.readResult with
        | .ok docs => docs
        | .error _ => []
      else []) ++ readableDocs fs

/-- The warnings the loader prints: one per regular file with a supported
extension whose read failed. -/
def failWarnings : List FileEntry → List String
  | [] => []
  | f :: fs =>
      (if f.isFile = true ∧ supportedExts.contains f.ext = true then
        match f.readResult with
        | .ok _ => []
        | .error e => [warnMsg f.path e]
      else []) ++ failWarnings fs

theorem foldl_loadStep (fs : List FileEntry) :
    ∀ d w, fs.foldl loadStep (d, w)
      = (d ++ readableDocs fs, w ++ failWarnings fs) := by
  induction fs with
  | nil => intro d w; simp [readableDocs, failWarnings]
  | cons f fs ih =>
      intro d w
      rw [List.foldl_cons, readableDocs, failWarnings]
      by_cases hf : f.isFile = true
      · by_cases he : supportedExts.contains f.ext = true
        · cases hr : f.readResult with
          | ok docs =>
              rw [loadStep, if_neg (by simp [hf]), if_pos he, hr, ih,
                if_pos ⟨hf, he⟩, if_pos ⟨hf, he⟩]
              simp
          | error e =>
              rw [loadStep, if_neg (by simp [hf]), if_pos he, hr, ih,
                if_pos ⟨hf, he⟩, if_pos ⟨hf, he⟩]
              simp
        · rw [loadStep, if_neg (by simp [hf]), if_neg he, ih,
            if_neg (fun hcon => he hcon.2), if_neg (fun hcon => he hcon.2)]
          simp
      · rw [loadStep, if_pos (by simpa using hf), ih,
          if_neg (fun hcon => hf hcon.1), if_neg (fun hcon => hf hcon.1)]
        simp

/-- Claim C4: when the corpus path does not exist or is not a directory,
`load_documents` fails with the spec's NotFoundError class — it neither
returns a document list nor raises an error of another class of the spec's
taxonomy (ConfigError, ValidationError, IOError). -/
theorem load_documents_folder_not_found (p : String) (folder : Folder)
    (cs co : Nat) (h : ¬ (folder.pathExists = true ∧ folder.isDir = true)) :
    (load_documents p folder cs co).1
        = .error (.valueError (folderNotFoundMsg p))
    ∧ (∀ e, (load_documents p folder cs co).1 = .error e →
        isNotFoundErrorClass e ∧ ¬ isConfigErrorClass e
        ∧ ¬ isValidationErrorClass e ∧ ¬ isIoErrClass e)
    ∧ (∀ docs, (load_documents p folder cs co).1 ≠ .ok docs) := by
  have hres : (load_documents p folder cs co).1
      = .error (.valueError (folderNotFoundMsg p)) := by
    simp only [load_documents]
    rw [if_pos h]
  refine ⟨hres, ?_, ?_⟩
  · intro e he
    rw [hres] at he
    have he' : e = .valueError (folderNotFoundMsg p) := by
      cases he
      rfl
    subst he'
    refine ⟨⟨p, rfl⟩, folderNotFoundMsg_ne_configMsg p,
      folderNotFoundMsg_ne_validationMsg p, fun hx => hx⟩
  · intro docs hcon
    rw [hres] at hcon
    cases hcon

/-- Concrete instance of the C4 theorem: a path that does not exist. -/
theorem load_documents_folder_not_found_witness :
    (¬ ((Folder.mk false true []).pathExists = true
        ∧ (Folder.mk false true []).isDir = true))
    ∧ ((load_documents "corpus" (Folder.mk false true []) 1200 250).1
        = .error (.valueError (folderNotFoundMsg "corpus"))
    ∧ (∀ e, (load_documents "corpus" (Folder.mk false true []) 1200 250).1 = .error e →
        isNotFoundErrorClass e ∧ ¬ isConfigErrorClass e
        ∧ ¬ isValidationErrorClass e ∧ ¬ isIoErrClass e)
    ∧ (∀ docs, (load_documents "corpus" (Folder.mk false true []) 1200 250).1 ≠ .ok docs)) :=
  ⟨by decide,
   load_documents_folder_not_found "corpus" (Folder.mk false true []) 1200 250 (by decide)⟩

/-- Claim C8: on an existing directory, `load_documents` never aborts: it
returns (chunked) exactly the documents of the regular, supported-extension
files whose reads succeeded, skips unsupported extensions silently (they
contribute neither documents nor warnings), and prints one warning per failed
read. -/
theorem load_documents_tolerates_failures (p : String) (folder : Folder)
    (cs co : Nat) (h : folder.pathExists = true ∧ folder.isDir = true) :
    (load_documents p folder cs co).1
        = .ok (split_documents cs co (readableDocs folder.files))
    ∧ (load_documents p folder cs co).2 = failWarnings folder.files := by
  have hcond : ¬ ¬ (folder.pathExists = true ∧ folder.isDir = true) :=
    not_not_intro h
  simp only [load_documents]
  rw [if_neg hcond, foldl_loadStep]
  simp

/-- Concrete instance of the C8 theorem: a folder holding one readable text
file, one corrupt PDF and one unsupported file. -/
theorem load_documents_tolerates_failures_witness :
    (let folder : Folder := Folder.mk true true
        [FileEntry.mk "a.txt" true ".txt" (.ok [Document.mk "hello"]),
         FileEntry.mk "b.pdf" true ".pdf" (.error "corrupt"),
         FileEntry.mk "c.xyz" true ".xyz" (.ok [Document.mk "ignored"])]
     (folder.pathExists = true ∧ folder.isDir = true)
     ∧ ((load_documents "corpus" folder 1200 250).1
          = .ok (split_documents 1200 250 (readableDocs folder.files))
       ∧ (load_documents "corpus" folder 1200 250).2 = failWarnings folder.files)) :=
  ⟨⟨rfl, rfl⟩,
   load_documents_tolerates_failures "corpus" _ 1200 250 ⟨rfl, rfl⟩⟩

/-!
## Embedding client: `_get_openai_embeddings` (`src/app/rag.py` lines 14–19)

The environment is passed explicitly: `env_OPENAI_API_KEY` is what
`os.getenv` returns (`none` when the variable is unset).  Python's
`if not api_key` is true both for `None` and for the empty string.  The
`OpenAIEmbeddings(...)` construction itself is an external library call,
modelled as plain success. -/
def _get_openai_embeddings (model : String) (env_OPENAI_API_KEY : Option String) :
    Except PyExc Unit :=
  match env_OPENAI_API_KEY with
  | none => .error (.valueError configMsg)
  | some api_key =>
      if api_key = "" then .error (.valueError configMsg) else .ok ()

theorem get_embeddings_error_shape (model : String) (key : Option String)
    (e : PyExc) (h : _get_openai_embeddings model key = .error e) :
    e = .valueError configMsg := by
  cases key with
  | none =>
      simp only [_get_openai_embeddings] at h
      cases h
      rfl
  | some k =>
      simp only [_get_openai_embeddings] at h
      by_cases hk : k = ""
      · rw [if_pos hk] at h
        cases h
        rfl
      · rw [if_neg hk] at h
        cases h

/-- Claim C6: with no credential configured the embedding-client helper
fails with the spec's ConfigError class; with some configured credential it
succeeds. -/
theorem embeddings_credential_check :
    (∀ model, ∃ e, _get_openai_embeddings model none = .error e
        ∧ isConfigErrorClass e)
    ∧ (∃ key, ∀ model, _get_openai_embeddings model (some key) = .ok ()) := by
  constructor
  · intro model
    exact ⟨.valueError configMsg, rfl, rfl⟩
  · exact ⟨"sk-test", fun model => rfl⟩

/-!
## Vector store (spec §4.4, §6)

Modelled from the spec: the vector store in `create_and_save_vectorstore`
and `load_vectorstore` (`src/app/rag.py` lines 80–145) is the FAISS library,
external code not under `src/`.  Spec §4.4/§6: the store holds
(vector, text) entries; `save` persists it to local storage (FAISS writes an
index file of vectors plus a docstore file), `load` reads it back, and
`search(q, k)` returns the k entries with highest similarity, ties broken by
insertion order; build→save→load must round-trip. -/
structure FAISSStore where
  entries : List (List ℚ × String)
deriving DecidableEq

/-- Modelled from the spec: what `save_local` writes to the save directory —
the vector index file and the docstore file, as parallel sequences. -/
structure SavedFiles where
  indexFile : List (List ℚ)
  docstoreFile : List String
deriving DecidableEq

/-- Modelled from the spec: `FAISS.from_documents(documents, embeddings)` —
one (vector, text) entry per document, in order. -/
def FAISS_from_documents (emb : String → List ℚ) (docs : List Document) :
    FAISSStore :=
  ⟨docs.map fun d => (emb d.text, d.text)⟩

/-- Modelled from the spec: `vectorstore.save_local(path)`. -/
def save_local (vs : FAISSStore) : SavedFiles :=
  ⟨vs.entries.unzip.1, vs.entries.unzip.2⟩

/-- Modelled from the spec: `FAISS.load_local(path, embeddings)`. -/
def load_local (f : SavedFiles) : FAISSStore :=
  ⟨f.indexFile.zip f.docstoreFile⟩

/-- Inner-product similarity between a query vector and a stored vector. -/
def dotProduct : List ℚ → List ℚ → ℚ
  | x :: xs, y :: ys => x * y + dotProduct xs ys
  | _, _ => 0

/-- Ranking used by the search: higher similarity first, ties broken by
insertion position. -/
def rankedBefore (qv : List ℚ) (a b : Nat × (List ℚ × String)) : Bool :=
  decide (dotProduct qv b.2.1 < dotProduct qv a.2.1
    ∨ (dotProduct qv a.2.1 = dotProduct qv b.2.1 ∧ a.1 ≤ b.1))

def insertRanked {α : Type} (le : α → α → Bool) (a : α) : List α → List α
  | [] => [a]
  | b :: bs => if le a b then a :: b :: bs else b :: insertRanked le a bs

def sortRanked {α : Type} (le : α → α → Bool) : List α → List α
  | [] => []
  | a :: as => insertRanked le a (sortRanked le as)

/-- Modelled from the spec: `similarity_search` — embed the query, rank all
entries by similarity (ties by insertion order), return the texts of the
first k. -/
def similarity_search (vs : FAISSStore) (emb : String → List ℚ)
    (q : String) (k : Nat) : List String :=
  ((sortRanked (rankedBefore (emb q)) vs.entries.enum).take k).map fun e => e.2.2

theorem load_local_save_local (vs : FAISSStore) :
    load_local (save_local vs) = vs := by
  cases vs with
  | mk entries =>
      show FAISSStore.mk (entries.unzip.1.zip entries.unzip.2) = FAISSStore.mk entries
      rw [List.zip_unzip]

/-- Claim C3 (spec-modelled): for a non-empty document list, searching the
index after a save/load round-trip returns exactly the same texts in the
same order as searching the freshly built index. -/
theorem vectorstore_roundtrip_search (docs : List Document)
    (emb : String → List ℚ) (q : String) (k : Nat) (h : docs ≠ []) :
    similarity_search (load_local (save_local (FAISS_from_documents emb docs))) emb q k
      = similarity_search (FAISS_from_documents emb docs) emb q k := by
  rw [load_local_save_local]

/-- Concrete instance of the C3 theorem on a two-document corpus. -/
theorem vectorstore_roundtrip_search_witness :
    ([Document.mk "alpha", Document.mk "beta"] ≠ ([] : List Document))
    ∧ similarity_search
        (load_local (save_local (FAISS_from_documents
          (fun s => [(s.length : ℚ)]) [Document.mk "alpha", Document.mk "beta"])))
        (fun s => [(s.length : ℚ)]) "alpha" 1
      = similarity_search
          (FAISS_from_documents
            (fun s => [(s.length : ℚ)]) [Document.mk "alpha", Document.mk "beta"])
          (fun s => [(s.length : ℚ)]) "alpha" 1 :=
  ⟨by decide,
   vectorstore_roundtrip_search [Document.mk "alpha", Document.mk "beta"]
     (fun s => [(s.length : ℚ)]) "alpha" 1 (by decide)⟩

/-!
## `create_and_save_vectorstore` (`src/app/rag.py` lines 80–118)

The source does, in order: (1) raise `ValueError` on an empty document list;
(2) `save_path.mkdir(parents=True, exist_ok=True)`, re-raising any failure
as `FileNotFoundError` (an `OSError`/`IOError` subclass in Python 3);
(3) `_get_openai_embeddings` (raises `ValueError` when the credential is
missing); (4) `FAISS.from_documents`; (5) `vectorstore.save_local`.
The filesystem effect is returned alongside the result: whether the save
directory was created (with parents), and what was written into it.
`mkdirOk` is whether the OS lets `mkdir` succeed, `osErr` the text of the OS
exception when it does not; steps (4)–(5) are external library calls
modelled as plain success. -/
structure FsEffect where
  dirCreated : Bool
  savedFiles : Option SavedFiles
deriving DecidableEq

def create_and_save_vectorstore (documents : List Document) (save_path : String)
    (env_OPENAI_API_KEY : Option String) (mkdirOk : Bool) (osErr : String)
    (emb : String → List ℚ) (embedding_model : String) :
    Except PyExc FAISSStore × FsEffect :=
  if documents.isEmpty then
    (.error (.valueError validationMsg), ⟨false, none⟩)
  else if mkdirOk = false then
    (.error (.fileNotFoundError (cannotCreateMsg save_path osErr)), ⟨false, none⟩)
  else
    match _get_openai_embeddings embedding_model env_OPENAI_API_KEY with
    | .error e => (.error e, ⟨true, none⟩)
    | .ok _ =>
        let vectorstore := FAISS_from_documents emb documents
        (.ok vectorstore, ⟨true, some (save_local vectorstore)⟩)

/-- Claim C5: on the empty document list, `create_and_save_vectorstore`
fails with the spec's ValidationError class, before any embedding or
persistence work — the result does not depend on the credential, the
filesystem or the embedding function, no directory is created and nothing is
written. -/
theorem vectorstore_empty_docs_validation :
    ∀ (save_path : String) (key : Option String) (mkdirOk : Bool)
      (osErr : String) (emb : String → List ℚ) (embedding_model : String),
      create_and_save_vectorstore [] save_path key mkdirOk osErr emb embedding_model
          = (.error (.valueError validationMsg), ⟨false, none⟩)
      ∧ isValidationErrorClass (.valueError validationMsg) :=
  fun _ _ _ _ _ _ => ⟨rfl, rfl⟩

/-- Claim C7: for a non-empty document list, the save operation creates the
target directory (with parents) exactly when the OS permits it, and the
overall operation fails with an IOError-class error exactly when the
directory cannot be created. -/
theorem save_creates_dir_and_fails_on_mkdir (documents : List Document)
    (save_path : String) (key : Option String) (mkdirOk : Bool) (osErr : String)
    (emb : String → List ℚ) (embedding_model : String) (h : documents ≠ []) :
    ((create_and_save_vectorstore documents save_path key mkdirOk osErr emb
        embedding_model).2.dirCreated = mkdirOk)
    ∧ ((∃ e, (create_and_save_vectorstore documents save_path key mkdirOk osErr emb
          embedding_model).1 = .error e ∧ isIoErrClass e)
        ↔ mkdirOk = false) := by
  have hne : documents.isEmpty = false := by
    cases documents with
    | nil => exact absurd rfl h
    | cons d ds => rfl
  cases mkdirOk with
  | false =>
      have hres : create_and_save_vectorstore documents save_path key false osErr emb
          embedding_model
          = (.error (.fileNotFoundError (cannotCreateMsg save_path osErr)),
             ⟨false, none⟩) := by
        simp [create_and_save_vectorstore, hne]
      rw [hres]
      exact ⟨rfl, iff_of_true
        ⟨.fileNotFoundError (cannotCreateMsg save_path osErr), rfl, trivial⟩ rfl⟩
  | true =>
      cases hg : _get_openai_embeddings embedding_model key with
      | error e =>
          have hres : create_and_save_vectorstore documents save_path key true osErr emb
              embedding_model = (.error e, ⟨true, none⟩) := by
            simp [create_and_save_vectorstore, hne, hg]
          rw [hres]
          refine ⟨rfl, iff_of_false ?_ (by simp)⟩
          rintro ⟨e', he', hio⟩
          have he2 : e' = e := by
            cases he'
            rfl
          subst he2
          rw [get_embeddings_error_shape embedding_model key e' hg] at hio
          exact hio
      | ok u =>
          have hres : create_and_save_vectorstore documents save_path key true osErr emb
              embedding_model
              = (.ok (FAISS_from_documents emb documents),
                 ⟨true, some (save_local (FAISS_from_documents emb documents))⟩) := by
            simp [create_and_save_vectorstore, hne, hg]
          rw [hres]
          refine ⟨rfl, iff_of_false ?_ (by simp)⟩
          rintro ⟨e', he', _⟩
          cases he'

/-- Concrete instance of the C7 theorem: one document, a configured
credential, a creatable directory. -/
theorem save_creates_dir_and_fails_on_mkdir_witness :
    ([Document.mk "doc"] ≠ ([] : List Document))
    ∧ (((create_and_save_vectorstore [Document.mk "doc"] "vectorstore" (some "sk")
          true "" (fun s => [(s.length : ℚ)]) "text-embedding-3-small").2.dirCreated = true)
    ∧ ((∃ e, (create_and_save_vectorstore [Document.mk "doc"] "vectorstore" (some "sk")
          true "" (fun s => [(s.length : ℚ)]) "text-embedding-3-small").1 = .error e
          ∧ isIoErrClass e)
        ↔ true = false)) :=
  ⟨by decide,
   save_creates_dir_and_fails_on_mkdir [Document.mk "doc"] "vectorstore" (some "sk")
     true "" (fun s => [(s.length : ℚ)]) "text-embedding-3-small" (by decide)⟩

/-- Claim C10: with a non-empty document list, a creatable save path and a
missing credential, `create_and_save_vectorstore` fails with the
missing-credential error only after having created the save directory: the
failed call leaves the filesystem changed. -/
theorem missing_credential_error_after_mkdir (documents : List Document)
    (save_path osErr : String) (emb : String → List ℚ) (embedding_model : String)
    (h : documents ≠ []) :
    (create_and_save_vectorstore documents save_path none true osErr emb
        embedding_model).1 = .error (.valueError configMsg)
    ∧ isConfigErrorClass (.valueError configMsg)
    ∧ (create_and_save_vectorstore documents save_path none true osErr emb
        embedding_model).2.dirCreated = true := by
  have hne : documents.isEmpty = false := by
    cases documents with
    | nil => exact absurd rfl h
    | cons d ds => rfl
  have hres : create_and_save_vectorstore documents save_path none true osErr emb
      embedding_model = (.error (.valueError configMsg), ⟨true, none⟩) := by
    simp [create_and_save_vectorstore, hne, _get_openai_embeddings]
  rw [hres]
  exact ⟨rfl, rfl, rfl⟩

/-- Concrete instance of the C10 theorem. -/
theorem missing_credential_error_after_mkdir_witness :
    ([Document.mk "doc"] ≠ ([] : List Document))
    ∧ ((create_and_save_vectorstore [Document.mk "doc"] "vectorstore" none true ""
          (fun s => [(s.length : ℚ)]) "text-embedding-3-small").1
        = .error (.valueError configMsg)
    ∧ isConfigErrorClass (.valueError configMsg)
    ∧ (create_and_save_vectorstore [Document.mk "doc"] "vectorstore" none true ""
          (fun s => [(s.length : ℚ)]) "text-embedding-3-small").2.dirCreated = true) :=
  ⟨by decide,
   missing_credential_error_after_mkdir [Document.mk "doc"] "vectorstore" ""
     (fun s => [(s.length : ℚ)]) "text-embedding-3-small" (by decide)⟩

/-!
## The `/ask-question` endpoint of `src/app/api.py`

Python resolves a called name at call time against the local scope, the
module globals and the builtins.  The module-level names of
`src/app/api.py` are its four imports (lines 1–4: `FastAPI`, `UploadFile`,
`File`, `predict_image`, `model`, `preprocess_images_resnet50_bytes`) and
its own definitions (`app`, `read_root`, `predict_image_endpoint`,
`ask_question_endpoint`); `answer_question` is none of these and is not a
Python builtin, so the call on line 29 raises `NameError`. -/
def apiModuleNames : List String :=
  ["FastAPI", "UploadFile", "File", "predict_image", "model",
   "preprocess_images_resnet50_bytes", "app", "read_root",
   "predict_image_endpoint", "ask_question_endpoint"]

/-- The `NameError` message Python produces for the unresolvable name. -/
def nameErrMsg : String := "NameError: name answer_question is not defined"

/-- Embedding of `ask_question_endpoint` (`src/app/api.py` lines 27–30):
the body first resolves the name `answer_question`; since it is not in the
module namespace the call raises `NameError` before producing any answer
(the `.ok` branch is unreachable). -/
def ask_question_endpoint (question : String) : Except PyExc String :=
  if apiModuleNames.contains "answer_question" then
    .ok question
  else
    .error (.nameError nameErrMsg)

/-- Claim C9: every request to the `/ask-question` endpoint of
`src/app/api.py` raises `NameError`; no request ever returns an answer. -/
theorem ask_question_always_name_error :
    ∀ question, ask_question_endpoint question = .error (.nameError nameErrMsg)
      ∧ ∀ a, ask_question_endpoint question ≠ .ok a := by
  intro question
  have he : ask_question_endpoint question = .error (.nameError nameErrMsg) := rfl
  refine ⟨he, fun a hcon => ?_⟩
  rw [he] at hcon
  cases hcon
